import Mathlib

/-!
Verification of the camera-recog gesture/facial pipeline.

Shallow embedding of the temporal-stabilization, blink-classification,
expression-scoring, cooldown-dispatch and action-execution logic of the
repository, over exact rational arithmetic.  Python floats are modelled
as rationals (the constants involved are all decimal literals and the
comparisons at stake are not sensitive to binary rounding); Python
wall-clock timestamps are rational parameters; a raised Python exception
is modelled as an `Except.error` value.
-/

namespace CameraRecog

/-- A Python exception raised by the analysed code. -/
inductive PyErr where
  | indexError : PyErr
deriving Repr, DecidableEq

/-! ## Data model: gesture candidates and stabilizer state

`GInfo` embeds the `gesture_info` dictionaries of `gesture_processor.py`.
The `stable` key is absent (`none`) on raw candidates produced by
`analyze_gesture` before smoothing and present (`some b`) on every
dictionary built inside `_smooth_gesture`; downstream readers use
`gesture_info.get('stable', False)`.  The `details` payload is carried
as an association list; the `facial_data` passthrough field is not
modelled (no claim mentions it and nothing in the smoothing logic reads
it). -/
structure GInfo where
  gestureType : String
  confidence : ℚ
  details : List (String × String)
  stable : Option Bool
deriving Repr, DecidableEq

/-- The neutral / zero-confidence dictionary built at the end of
`_smooth_gesture` (lines 333-338 of `gesture_processor.py`). -/
def neutralOut : GInfo := ⟨"neutral", 0, [], some false⟩

/-- Stabilizer-owned state of a `GestureProcessor`
(`gesture_buffer`, `confidence_history`, `last_confirmed_gesture`,
`gesture_hold_frames`). -/
structure SmoothState where
  gestureBuffer : List GInfo
  confidenceHistory : List ℚ
  lastConfirmedGesture : Option String
  gestureHoldFrames : Nat
deriving Repr, DecidableEq

/-- `buffer_size = 5` in `GestureProcessor.__init__`. -/
def bufferSize : Nat := 5

/-- `min_hold_frames = 2` in `GestureProcessor.__init__`. -/
def minHoldFrames : Nat := 2

/-- State of a freshly constructed `GestureProcessor`. -/
def initSmoothState : SmoothState := ⟨[], [], none, 0⟩

/-- Python truthiness of an optional string (`None` and `''` are falsy). -/
def optStrTruthy : Option String → Bool
  | none => false
  | some s => s ≠ ""

/-- Number of buffer entries carrying label `l`
(the per-label count assembled in `gesture_counts`). -/
def countLabel (buf : List GInfo) (l : String) : Nat :=
  (buf.filter (fun g => g.gestureType = l)).length

/-- Distinct labels of the buffer in order of first occurrence: the key
order of the Python dict `gesture_counts`. -/
def firstOccLabels (buf : List GInfo) : List String :=
  buf.foldl (fun acc g => if g.gestureType ∈ acc then acc else acc ++ [g.gestureType]) []

/-- The label `max(gesture_counts.items(), key=...)` selects: Python's
`max` keeps the first item whose count is maximal, scanning in dict
(first-occurrence) order. -/
def mostCommonLabel (buf : List GInfo) : String :=
  match firstOccLabels buf with
  | [] => "neutral"
  | h :: t => t.foldl (fun best l => if countLabel buf l > countLabel buf best then l else best) h

/-- Mean confidence over the buffer entries whose label is `l`
(the `np.mean` at lines 287-290). -/
def avgConfFor (buf : List GInfo) (l : String) : ℚ :=
  let cs := (buf.filter (fun g => g.gestureType = l)).map (fun g => g.confidence)
  cs.sum / (cs.length : ℚ)

/-- Push a candidate onto the fixed-capacity window: append, then
`pop(0)` whenever the length exceeds `buffer_size`. -/
def pushWindow (buf : List GInfo) (g : GInfo) : List GInfo :=
  let b := buf ++ [g]
  if b.length > bufferSize then b.tail else b

/-- Same FIFO push for `confidence_history`. -/
def pushHistory (h : List ℚ) (c : ℚ) : List ℚ :=
  let h2 := h ++ [c]
  if h2.length > bufferSize then h2.tail else h2

/-- Promotion criterion of line 293:
`occurrence_ratio >= 0.6 and avg_confidence > 0.5` for the window's
most common label. -/
def promotionMet (buf : List GInfo) : Prop :=
  let mc := mostCommonLabel buf
  (countLabel buf mc : ℚ) / (buf.length : ℚ) ≥ 3/5 ∧ avgConfFor buf mc > 1/2

instance (buf : List GInfo) : Decidable (promotionMet buf) := by
  unfold promotionMet; exact instDecidableAnd

/-- Decay / fall-through section of `_smooth_gesture` (lines 321-338),
entered with the possibly-already-mutated hold counter. -/
def decayStep (buf : List GInfo) (hist : List ℚ) (last : Option String) (hold : Nat)
    (avg : ℚ) (g : GInfo) : SmoothState × GInfo :=
  if optStrTruthy last ∧ hold > 0 then
    let hold2 := hold - 1
    if hold2 > 0 then
      (⟨buf, hist, last, hold2⟩, ⟨last.getD "", avg * (4/5), g.details, some false⟩)
    else
      (⟨buf, hist, last, hold2⟩, neutralOut)
  else
    (⟨buf, hist, last, hold⟩, neutralOut)

/-- Embedding of `GestureProcessor._smooth_gesture` (lines 260-338):
push the candidate, return it raw while the window is not yet full,
otherwise run majority vote, hold-counter gating and decay.  Returns
the updated state and the returned dictionary. -/
def smoothGesture (s : SmoothState) (g : GInfo) : SmoothState × GInfo :=
  let buf := pushWindow s.gestureBuffer g
  let hist := pushHistory s.confidenceHistory g.confidence
  if buf.length < bufferSize then
    (⟨buf, hist, s.lastConfirmedGesture, s.gestureHoldFrames⟩, g)
  else
    let mc := mostCommonLabel buf
    let avg := avgConfFor buf mc
    if promotionMet buf then
      let hold1 := if s.lastConfirmedGesture = some mc then s.gestureHoldFrames + 1 else 1
      if hold1 ≥ minHoldFrames then
        (⟨buf, hist, some mc, hold1⟩, ⟨mc, avg, g.details, some true⟩)
      else
        decayStep buf hist s.lastConfirmedGesture hold1 avg g
    else
      decayStep buf hist s.lastConfirmedGesture s.gestureHoldFrames avg g

/-- Feed a sequence of candidates through the stabilizer, collecting the
per-frame returned dictionaries. -/
def runSmooth (s : SmoothState) : List GInfo → SmoothState × List GInfo
  | [] => (s, [])
  | g :: gs =>
    let (s1, out) := smoothGesture s g
    let (s2, outs) := runSmooth s1 gs
    (s2, out :: outs)

/-- The open-palm candidate at confidence 0.9 of the end-to-end
scenario. -/
def openPalmCand : GInfo := ⟨"open_palm", 9/10, [], none⟩

/-- A raw neutral candidate (what `analyze_gesture` yields on a frame
with nothing detected). -/
def neutralCand : GInfo := ⟨"neutral", 0, [], none⟩

/-- Concrete stabilizer state used to exercise the decay path with hold
counter 1: full-enough window, previously confirmed label `open_palm`. -/
def decayStateHoldOne : SmoothState :=
  ⟨[neutralCand, neutralCand, neutralCand, neutralCand], [0, 0, 0, 0], some "open_palm", 1⟩

/-- Same state with hold counter 2 (used as the amended-claim witness). -/
def decayStateHoldTwo : SmoothState :=
  ⟨[neutralCand, neutralCand, neutralCand, neutralCand], [0, 0, 0, 0], some "open_palm", 2⟩

/-! ## Raw classifiers: `analyze_gesture` and its helpers

Hand landmarks are the `landmark` lists of MediaPipe hand results; body
landmarks are pose landmarks.  An out-of-range Python list index raises
`IndexError`, modelled by `Except.error`.  The detail payload
dictionaries returned by the `_is_*` helpers are not inspected by any
claim and are dropped; only each helper's `confidence` entry is kept. -/

/-- A 2-D landmark point (the `z`/`visibility` attributes are never read
by the gesture rules). -/
structure Landmark where
  x : ℚ
  y : ℚ
deriving Repr, DecidableEq

/-- A body-pose landmark as `_analyze_body_gesture` expects it: the code
reads a `confidence` attribute from hand/shoulder landmarks. -/
structure BodyLandmark where
  x : ℚ
  y : ℚ
  conf : ℚ
deriving Repr, DecidableEq

/-- Python list indexing: out of range raises `IndexError`. -/
def idx {α : Type} (l : List α) (i : Nat) : Except PyErr α :=
  match l.get? i with
  | some a => Except.ok a
  | none => Except.error PyErr.indexError

/-- `_is_thumbs_up` (lines 171-191): thumb extension distance times 0.5
when index and middle fingertips sit below the thumb tip, capped at 1. -/
def isThumbsUp (lm : List Landmark) : Except PyErr ℚ := do
  let thumbIp ← idx lm 2
  let thumbTip ← idx lm 4
  let indexTip ← idx lm 8
  let middleTip ← idx lm 12
  let dist := |thumbTip.y - thumbIp.y|
  let conf := if indexTip.y > thumbTip.y ∧ middleTip.y > thumbTip.y then dist * (1/2) else 0
  pure (min conf 1)

/-- `_is_peace_sign` (lines 193-213). -/
def isPeaceSign (lm : List Landmark) : Except PyErr ℚ := do
  let indexTip ← idx lm 8
  let middleTip ← idx lm 12
  let ringTip ← idx lm 16
  let pinkyTip ← idx lm 20
  let dist := |indexTip.x - middleTip.x|
  let conf := if ringTip.y > middleTip.y ∧ pinkyTip.y > middleTip.y then dist * (7/10) else 0
  pure (min conf 1)

/-- `_is_open_palm` (lines 215-233): population variance of the five
fingertip heights (`np.var`), confidence `1 - 5*var` when all fingertips
sit above `palm.y + 0.1`, clamped to `[0, 1]`. -/
def isOpenPalm (lm : List Landmark) : Except PyErr ℚ := do
  let t4 ← idx lm 4
  let t8 ← idx lm 8
  let t12 ← idx lm 12
  let t16 ← idx lm 16
  let t20 ← idx lm 20
  let ys := [t4.y, t8.y, t12.y, t16.y, t20.y]
  let m := ys.sum / 5
  let v := ((ys.map (fun y => (y - m) ^ 2)).sum) / 5
  let palm ← idx lm 0
  let ext := [t4, t8, t12, t16, t20].all (fun t => decide (t.y < palm.y + 1/10))
  let conf := if ext then 1 - v * 5 else 0
  pure (min (max conf 0) 1)

/-- `_is_pointing` (lines 235-258). -/
def isPointing (lm : List Landmark) : Except PyErr ℚ := do
  let indexTip ← idx lm 8
  let indexPip ← idx lm 6
  let middleTip ← idx lm 12
  let ringTip ← idx lm 16
  let pinkyTip ← idx lm 20
  let ext := indexTip.y < indexPip.y - 1/20
  let curled := middleTip.y > indexPip.y ∧ ringTip.y > indexPip.y ∧ pinkyTip.y > indexPip.y
  pure (if ext ∧ curled then 4/5 else 0)

/-- `_analyze_hand_gesture` (lines 86-139): per hand, first extract the
six key points (lines 92-97 — this is where a short landmark list
raises), then test the gesture rules in priority order; the first rule
whose confidence passes its threshold returns; otherwise the next hand
is tried, and neutral at confidence 0 is returned after the loop. -/
def analyzeHandGesture : List (List Landmark) → Except PyErr GInfo
  | [] => Except.ok ⟨"neutral", 0, [], none⟩
  | lm :: rest => do
    let _ ← idx lm 4
    let _ ← idx lm 8
    let _ ← idx lm 12
    let _ ← idx lm 16
    let _ ← idx lm 20
    let _ ← idx lm 0
    let t ← isThumbsUp lm
    if t > 7/10 then pure ⟨"thumbs_up", t, [], none⟩ else do
    let p ← isPeaceSign lm
    if p > 7/10 then pure ⟨"peace_sign", p, [], none⟩ else do
    let o ← isOpenPalm lm
    if o > 3/4 then pure ⟨"open_palm", o, [], none⟩ else do
    let pt ← isPointing lm
    if pt > 7/10 then pure ⟨"pointing", pt, [], none⟩ else
    analyzeHandGesture rest

/-- `_analyze_body_gesture` (lines 141-169): raise-hand rule over the
pose landmarks (indices 11-16 and 23-24 are read). -/
def analyzeBodyGesture (lm : List BodyLandmark) : Except PyErr GInfo := do
  let lShoulder ← idx lm 11
  let rShoulder ← idx lm 12
  let _lElbow ← idx lm 13
  let _rElbow ← idx lm 14
  let lHand ← idx lm 15
  let rHand ← idx lm 16
  let _lHip ← idx lm 23
  let _rHip ← idx lm 24
  if (lHand.y < lShoulder.y ∧ lHand.conf > 1/2) ∨ (rHand.y < rShoulder.y ∧ rHand.conf > 1/2)
  then pure ⟨"raise_hand", 3/4,
    [("raised_hand", if lHand.y < lShoulder.y then "left" else "right")], none⟩
  else pure ⟨"neutral", 0, [], none⟩

/-- The expression entry of the facial bundle passed into
`analyze_gesture` (`facial['expression']`). -/
structure ExprOut where
  expression : String
  confidence : ℚ
deriving Repr, DecidableEq

/-- The facial data bundle (`facial` argument); only its `expression`
entry is read by `analyze_gesture`. -/
structure FacialBundle where
  expression : Option ExprOut
deriving Repr, DecidableEq

/-- The `gesture_data` dictionary handed to `analyze_gesture`: `pose`
is `some l` when `pose` is truthy and `pose.pose_landmarks` is present,
`hands` is `some hl` when the hands result object exists
(`multi_hand_landmarks` list `hl`, truthy iff non-empty). -/
structure GestureData where
  pose : Option (List BodyLandmark)
  hands : Option (List (List Landmark))
  facial : Option FacialBundle
deriving Repr, DecidableEq

/-- Embedding of `GestureProcessor.analyze_gesture` (lines 33-83):
hand gestures first, body gestures next, facial-expression fallback when
confidence is still below 0.5, then temporal smoothing.  A raised
`IndexError` from the helpers propagates out (there is no try/except in
this code path). -/
def analyzeGesture (s : SmoothState) (gd : GestureData) :
    Except PyErr (SmoothState × GInfo) := do
  let gi0 : GInfo := ⟨"neutral", 0, [], none⟩
  let gi1 ← match gd.hands with
    | some hl =>
      if hl ≠ [] then do
        let hg ← analyzeHandGesture hl
        pure (if hg.confidence > 1/2 then hg else gi0)
      else pure gi0
    | none => pure gi0
  let gi2 ← match gd.pose with
    | some pl => do
      let bg ← analyzeBodyGesture pl
      pure (if bg.confidence > gi1.confidence then bg else gi1)
    | none => pure gi1
  let gi3 := match gd.facial with
    | some fb =>
      if gi2.confidence < 1/2 then
        match fb.expression with
        | some e =>
          if e.expression ≠ "" ∧ e.confidence > 2/5 then
            ({ gestureType := e.expression, confidence := e.confidence,
               details := [("type", "facial_expression"), ("expression", e.expression)],
               stable := gi2.stable } : GInfo)
          else gi2
        | none => gi2
      else gi2
    | none => gi2
  pure (smoothGesture s gi3)

/-- A hand landmark list with only 5 of the 21 expected points. -/
def shortHand : List Landmark := List.replicate 5 ⟨1/2, 1/2⟩


/-! ## Facial detector: blink bursts, glasses hysteresis, expressions

Embeddings from `facial_detector.py`.  Region statistics (`np.mean` /
`np.std` over grayscale sub-regions) are external inputs here, mirroring
the spec's view of the scorer as a function of face-region statistics;
the pixel arrays themselves are outside the modelled core. -/

/-- Append a blink timestamp to the burst buffer
(`deque(maxlen=10)`). -/
def pushBlink (buf : List ℚ) (t : ℚ) : List ℚ :=
  let b := buf ++ [t]
  if b.length > 10 then b.tail else b

/-- Number of buffered blink timestamps within 1.5s of the current
blink time (the filtered `recent_blinks` of line 209). -/
def recentBlinkCount (buf : List ℚ) (currentTime : ℚ) : Nat :=
  (buf.filter (fun t => currentTime - t < 3/2)).length

/-- Embedding of `FacialDetector._analyze_blink_pattern`
(lines 207-216). -/
def analyzeBlinkPattern (buf : List ℚ) (currentTime : ℚ) : String :=
  if recentBlinkCount buf currentTime ≥ 3 then "triple_blink"
  else if recentBlinkCount buf currentTime ≥ 2 then "double_blink"
  else "single_blink"

/-- Glasses-detection hysteresis state
(`glasses_frames`, `no_glasses_frames`, `wearing_glasses`). -/
structure GlassesState where
  glassesFrames : Nat
  noGlassesFrames : Nat
  wearingGlasses : Bool
deriving Repr, DecidableEq

/-- `FacialDetector.__init__` glasses state. -/
def initGlassesState : GlassesState := ⟨0, 0, false⟩

/-- Embedding of the glasses-status update in
`detect_face_and_features` (lines 89-99), fed the detection counts of
the plain eye cascade and the glasses eye cascade.  A frame where
neither cascade finds eyes changes nothing. -/
def updateGlasses (s : GlassesState) (eyes eyesGlasses : Nat) : GlassesState :=
  if eyesGlasses > 0 ∧ eyes = 0 then
    let gf := s.glassesFrames + 1
    ⟨gf, 0, if gf > 5 then true else s.wearingGlasses⟩
  else if eyes > 0 then
    let nf := s.noGlassesFrames + 1
    ⟨0, nf, if nf > 5 then false else s.wearingGlasses⟩
  else s

/-- Run the glasses update over a sequence of per-frame
`(eyes, eyes_with_glasses)` detection counts. -/
def runGlasses (s : GlassesState) : List (Nat × Nat) → GlassesState
  | [] => s
  | (e, eg) :: rest => runGlasses (updateGlasses s e eg) rest

/-- A detected eye bounding box; only width and height are read
(for the eye-area term of the surprise rule). -/
structure EyeBox where
  w : ℚ
  h : ℚ
deriving Repr, DecidableEq

/-- Inputs of `detect_expression` for a detected face: the smile-box
count, the eye boxes and the grayscale statistics of the three face
bands, plus the face rectangle dimensions. -/
structure FaceFeatures where
  smiles : Nat
  eyes : List EyeBox
  eyebrowMean : ℚ
  eyebrowStd : ℚ
  mouthMean : ℚ
  mouthStd : ℚ
  eyeMean : ℚ
  eyeStd : ℚ
  faceW : ℚ
  faceH : ℚ
deriving Repr, DecidableEq

/-- The five per-label expression scores (`expression_scores`). -/
structure ExpressionScores where
  happy : ℚ
  sad : ℚ
  surprised : ℚ
  angry : ℚ
  neutral : ℚ
deriving Repr, DecidableEq

/-- Embedding of the score computation of `detect_expression`
(lines 239-303): baseline scores, smile rule, brow/mouth heuristics and
the surprise rule. -/
def computeScores (f : FaceFeatures) : ExpressionScores :=
  let s0 : ExpressionScores := ⟨1/10, 1/10, 1/10, 1/10, 3/5⟩
  let s1 := if f.smiles > 0 then
      { s0 with happy := 3/4 + (f.smiles : ℚ) * (3/20), neutral := 1/5 }
    else s0
  if f.faceH > 0 ∧ f.faceW > 0 then
    let s2 :=
      if f.smiles = 0 then
        if f.eyebrowMean < 110 ∧ f.eyebrowStd > 20 ∧ f.mouthStd > 30 then
          { s1 with angry := 13/20, happy := 1/10, neutral := 1/4 }
        else if f.mouthMean > 125 ∧ f.eyebrowMean > 95 then
          { s1 with sad := 13/20, happy := 1/10, neutral := 1/4 }
        else
          { s1 with neutral := 13/20, happy := 3/20 }
      else
        { s1 with sad := max 0 (s1.sad - 2/5), angry := max 0 (s1.angry - 2/5) }
    if f.eyes.length ≥ 2 ∧ f.smiles = 0 then
      let areas := f.eyes.map (fun e => e.w * e.h)
      let avgArea := areas.sum / (areas.length : ℚ)
      if avgArea > 500 ∧ f.eyeStd > 25 then
        if f.eyeMean < 125 then { s2 with surprised := 7/10, neutral := 1/5 } else s2
      else s2
    else s2
  else s1

/-- The five `(label, score)` items in the insertion order of the
`expression_scores` dict. -/
def scoreList (sc : ExpressionScores) : List (String × ℚ) :=
  [("happy", sc.happy), ("sad", sc.sad), ("surprised", sc.surprised),
   ("angry", sc.angry), ("neutral", sc.neutral)]

/-- Python `max(items, key=lambda x: x[1])`: scans left to right and
keeps the first item whose value is maximal. -/
def pickMaxFirst : List (String × ℚ) → String × ℚ
  | [] => ("neutral", 0)
  | p :: rest => rest.foldl (fun best q => if q.2 > best.2 then q else best) p

/-- `expression_history` push (`deque(maxlen=5)`). -/
def pushExprHistory (h : List (String × ℚ)) (e : String × ℚ) : List (String × ℚ) :=
  let h2 := h ++ [e]
  if h2.length > 5 then h2.tail else h2

/-- Insert one `(label, confidence)` observation into the per-label
confidence groups, preserving first-occurrence order of labels
(the `expr_counts` dict of lines 318-322). -/
def insertGroup : List (String × List ℚ) → String → ℚ → List (String × List ℚ)
  | [], e, c => [(e, [c])]
  | (l, cs) :: rest, e, c =>
    if l = e then (l, cs ++ [c]) :: rest else (l, cs) :: insertGroup rest e c

/-- Group the history confidences by label, in history order. -/
def groupConfs (hist : List (String × ℚ)) : List (String × List ℚ) :=
  hist.foldl (fun acc p => insertGroup acc p.1 p.2) []

/-- Per-label average confidences over the history
(`avg_confidences` of line 325). -/
def avgConfList (hist : List (String × ℚ)) : List (String × ℚ) :=
  (groupConfs hist).map (fun p => (p.1, p.2.sum / (p.2.length : ℚ)))

/-- Result record of `detect_expression` (its `all_scores` entry keeps
the unsmoothed per-label scores; `mood` duplicates `expression`). -/
structure ExprResult where
  expression : String
  confidence : ℚ
  allScores : ExpressionScores
deriving Repr, DecidableEq

/-- The frame's dominant `(label, score)` pair (line 306). -/
def domOf (f : FaceFeatures) : String × ℚ :=
  pickMaxFirst (scoreList (computeScores f))

/-- The dominant score floored at 0.5 (line 311). -/
def conf0Of (f : FaceFeatures) : ℚ := max (1/2) (domOf f).2

/-- The expression history after this frame's append (line 314). -/
def hist2Of (hist : List (String × ℚ)) (f : FaceFeatures) : List (String × ℚ) :=
  pushExprHistory hist ((domOf f).1, conf0Of f)

/-- The emitted `(label, confidence)`: the history-average re-ranking
applies once at least 2 entries are stored (lines 317-328). -/
def resOf (hist : List (String × ℚ)) (f : FaceFeatures) : String × ℚ :=
  if (hist2Of hist f).length ≥ 2 then pickMaxFirst (avgConfList (hist2Of hist f))
  else ((domOf f).1, conf0Of f)

/-- The pure part of `detect_expression` on a detected face
(lines 239-330): raw scores, dominant label, 0.5 confidence floor,
history push and history-average re-ranking.  Returns the result and
the updated expression history. -/
def detectExpressionCore (hist : List (String × ℚ)) (f : FaceFeatures) :
    ExprResult × List (String × ℚ) :=
  (⟨(resOf hist f).1, (resOf hist f).2, computeScores f⟩, hist2Of hist f)

/-- A registered mood observer: may return normally or raise. -/
def MoodObserver : Type := String → ℚ → Except Unit Unit

/-- The callback fan-out loop of lines 335-339: each observer is called
inside its own try/except, so a raising observer's outcome is recorded
and iteration continues with the remaining observers regardless. -/
def runMoodCallbacks : List MoodObserver → String → ℚ → List (Except Unit Unit)
  | [], _, _ => []
  | cb :: rest, l, c =>
    match cb l c with
    | Except.ok _ => Except.ok () :: runMoodCallbacks rest l c
    | Except.error e => Except.error e :: runMoodCallbacks rest l c

/-- Embedding of `FacialDetector.detect_expression` (lines 218-348)
including its entry guards and the observer notification gate
(`confidence >= 0.4`).  Returns `none` where the Python returns `None`;
otherwise the result, the updated history and the list of observer
invocation outcomes. -/
def detectExpression (obs : List MoodObserver) (hist : List (String × ℚ))
    (faceDetected : Bool) (features : Option FaceFeatures) :
    Option (ExprResult × List (String × ℚ) × List (Except Unit Unit)) :=
  match features with
  | none => none
  | some f =>
    if faceDetected = false then none
    else if f.faceW ≤ 0 ∨ f.faceH ≤ 0 then none
    else
      let (r, hist2) := detectExpressionCore hist f
      let inv := if r.confidence ≥ 2/5 then runMoodCallbacks obs r.expression r.confidence
        else []
      some (r, hist2, inv)

/-! ## Cooldown dispatch (main.py) and action executor

`ActionExecutor.music_manager` is always `None` in this repository: the
module `mood_music_manager` imported at the top of `action_executor.py`
does not exist (the repository ships `mood_music_player` instead), so
`MoodMusicManager` is `None` and the constructor leaves
`music_manager = None`.  Actuator side effects (subprocess launches,
file writes) are abstracted to their returned result dictionaries and
to the `action_log` tags they append. -/

/-- `ActionExecutor.music_manager` (see section comment). -/
def musicManager : Option Unit := none

/-- Result dictionary of an actuator (`status` and `action` entries;
extra entries such as filenames are not inspected by any claim). -/
structure ActionResult where
  status : String
  action : String
deriving Repr, DecidableEq

/-- The `mood_actions` table (lines 28-34): per-mood actuator results,
with `neutral` mapped to `None`.  Each mapped actuator returns a success
dictionary when the music manager is absent. -/
def moodActionResult (mood : String) (_conf : ℚ) : Option ActionResult :=
  if mood = "happy" then some ⟨"success", "Happy mood detected"⟩
  else if mood = "sad" then some ⟨"success", "Mood logged"⟩
  else if mood = "surprised" then some ⟨"success", "Screenshot saved"⟩
  else if mood = "angry" then some ⟨"success", "Notifications cleared"⟩
  else none

/-- Embedding of `ActionExecutor.execute_mood_action` (lines 70-90):
confidence below 0.6 returns `None` before anything happens; otherwise
(music manager absent) the mood's actuator runs and an action-log entry
tagged `mood_<mood>` is appended.  The second component is the list of
appended log tags. -/
def executeMoodAction (mood : String) (conf : ℚ) : Option ActionResult × List String :=
  if conf < 3/5 then (none, [])
  else
    match musicManager with
    | some _ => (some ⟨"success", "Playing mood playlist"⟩, ["mood_" ++ mood])
    | none =>
      match moodActionResult mood conf with
      | some r => (some r, ["mood_" ++ mood])
      | none => (none, [])

/-- Embedding of `ActionExecutor.execute_blink_action` (lines 45-68):
the `blink_actions` table runs the mapped actuator and logs it; an
unknown blink type returns `None`. -/
def executeBlinkAction (blinkType : String) : Option ActionResult × List String :=
  if blinkType = "single_blink" then (some ⟨"success", "WhatsApp opened"⟩, ["single_blink"])
  else if blinkType = "double_blink" then (some ⟨"success", "Screenshot saved"⟩, ["double_blink"])
  else if blinkType = "triple_blink" then (some ⟨"success", "Notepad opened"⟩, ["triple_blink"])
  else (none, [])

/-- The blink entry of `facial_data` as read by
`process_gesture_and_respond`. -/
structure BlinkInfoR where
  blinkDetected : Bool
  blinkType : Option String
deriving Repr, DecidableEq

/-- The expression entry of `facial_data` as read by the mood block. -/
structure MoodInfoR where
  mood : String
  confidence : ℚ
deriving Repr, DecidableEq

/-- Blink block of `process_gesture_and_respond` (lines 262-272):
fires `execute_blink_action` and unconditionally stamps
`last_blink_action_time = current_time` when a typed blink arrives past
the 3.0s cooldown. -/
def processBlinkBlock (lastBlink : ℚ) (blink : Option BlinkInfoR) (now : ℚ) :
    Option ActionResult × ℚ :=
  match blink with
  | none => (none, lastBlink)
  | some b =>
    if b.blinkDetected = true ∧ optStrTruthy b.blinkType = true ∧ now - lastBlink ≥ 3 then
      ((executeBlinkAction (b.blinkType.getD "")).1, now)
    else (none, lastBlink)

/-- Mood block of `process_gesture_and_respond` (lines 274-287): a
non-neutral mood past the 5.0s cooldown runs `execute_mood_action`, and
`last_mood_action_time` is stamped only when the returned result is
truthy. -/
def processMoodBlock (lastMood : ℚ) (expr : Option MoodInfoR) (now : ℚ) :
    Option ActionResult × ℚ :=
  match expr with
  | none => (none, lastMood)
  | some e =>
    if e.mood ≠ "neutral" ∧ now - lastMood ≥ 5 then
      let r := (executeMoodAction e.mood e.confidence).1
      (r, if r.isSome then now else lastMood)
    else (none, lastMood)

/-- Gesture block of `process_gesture_and_respond` (lines 289-312): a
stable non-neutral gesture above confidence 0.65 past the 2.0s cooldown
produces a conversation response (`true`) and stamps
`last_gesture_time`. -/
def processGestureBlock (lastGesture : ℚ) (gi : GInfo) (now : ℚ) : Bool × ℚ :=
  if gi.confidence > 13/20 ∧ gi.stable.getD false = true ∧ gi.gestureType ≠ "neutral"
      ∧ now - lastGesture ≥ 2 then
    (true, now)
  else (false, lastGesture)

/-- Two consecutive blink events through the blink block: results of
both calls and the final last-trigger timestamp. -/
def runBlinkTwice (last0 : ℚ) (b1 b2 : BlinkInfoR) (t1 t2 : ℚ) :
    Option ActionResult × Option ActionResult × ℚ :=
  let (r1, l1) := processBlinkBlock last0 (some b1) t1
  let (r2, l2) := processBlinkBlock l1 (some b2) t2
  (r1, r2, l2)

/-- Two consecutive mood events through the mood block. -/
def runMoodTwice (last0 : ℚ) (m1 m2 : MoodInfoR) (t1 t2 : ℚ) :
    Option ActionResult × Option ActionResult × ℚ :=
  let (r1, l1) := processMoodBlock last0 (some m1) t1
  let (r2, l2) := processMoodBlock l1 (some m2) t2
  (r1, r2, l2)

/-- Two consecutive confirmed gestures through the gesture block. -/
def runGestureTwice (last0 : ℚ) (g1 g2 : GInfo) (t1 t2 : ℚ) :
    Bool × Bool × ℚ :=
  let (r1, l1) := processGestureBlock last0 g1 t1
  let (r2, l2) := processGestureBlock l1 g2 t2
  (r1, r2, l2)

/-- The blink types mapped in `blink_actions`. -/
def knownBlinkTypes : List (Option String) :=
  [some "single_blink", some "double_blink", some "triple_blink"]

/-- The non-neutral moods mapped in `mood_actions`. -/
def knownMoods : List String := ["happy", "sad", "surprised", "angry"]

/-- A stabilized open-palm event as it would reach the gesture cooldown
gate (confidence above 0.65, `stable=True`). -/
def openPalmStable : GInfo := ⟨"open_palm", 9/10, [], some true⟩

/-- A face-feature bundle with two detected smile boxes (used to exhibit
the unclamped happy score). -/
def exFace : FaceFeatures := ⟨2, [], 100, 10, 100, 10, 100, 10, 100, 100⟩

/-- A mood observer that returns normally. -/
def okObs : MoodObserver := fun _ _ => Except.ok ()

/-- A mood observer that raises. -/
def badObs : MoodObserver := fun _ _ => Except.error ()


end CameraRecog

namespace CameraRecog

/-! ## Lemmas about the stabilizer -/

/-- Below capacity a push is a plain append (no `pop(0)`). -/
lemma pushWindow_small (buf : List GInfo) (g : GInfo) (h : buf.length + 1 ≤ 5) :
    pushWindow buf g = buf ++ [g] := by
  unfold pushWindow bufferSize
  rw [if_neg (by simp; omega)]

/-- While the window is not yet full, `_smooth_gesture` only pushes and
returns the raw candidate. -/
lemma smoothGesture_raw (s : SmoothState) (g : GInfo)
    (h : s.gestureBuffer.length + 1 < 5) :
    smoothGesture s g =
      (⟨s.gestureBuffer ++ [g], pushHistory s.confidenceHistory g.confidence,
        s.lastConfirmedGesture, s.gestureHoldFrames⟩, g) := by
  have hpw := pushWindow_small s.gestureBuffer g (by omega)
  unfold smoothGesture
  rw [hpw, if_pos (by simp [bufferSize]; omega)]

/-- One step of the stabilizer from a state that has never confirmed a
gesture: the confirmed label stays unset and the output is either the
raw candidate or a `stable=False` dictionary.  This is the key invariant
behind the unreachability of `stable=True`: `last_confirmed_gesture` is
assigned only inside the `hold >= min_hold` branch, which requires
`last_confirmed_gesture` to already equal the majority label. -/
lemma smoothGesture_none_invariant (s : SmoothState) (g : GInfo)
    (h : s.lastConfirmedGesture = none) :
    (smoothGesture s g).1.lastConfirmedGesture = none ∧
      ((smoothGesture s g).2 = g ∨ (smoothGesture s g).2.stable = some false) := by
  unfold smoothGesture
  by_cases hfull : (pushWindow s.gestureBuffer g).length < bufferSize
  · simp [hfull, h]
  · rw [if_neg hfull]
    by_cases hmet : promotionMet (pushWindow s.gestureBuffer g)
    · rw [if_pos hmet]
      have h1 : (if s.lastConfirmedGesture =
          some (mostCommonLabel (pushWindow s.gestureBuffer g)) then
          s.gestureHoldFrames + 1 else 1) = 1 := by
        rw [h]; simp
      rw [h1, if_neg (by decide)]
      simp [decayStep, h, optStrTruthy, neutralOut]
    · rw [if_neg hmet]
      simp [decayStep, h, optStrTruthy, neutralOut]

/-- From a state with no confirmed gesture, no candidate sequence of raw
candidates (no `stable` key) ever produces an output with
`stable=True`. -/
theorem runSmooth_never_stable (gs : List GInfo) (s : SmoothState)
    (hs : s.lastConfirmedGesture = none) (hg : ∀ g ∈ gs, g.stable ≠ some true) :
    ∀ out ∈ (runSmooth s gs).2, out.stable ≠ some true := by
  induction gs generalizing s with
  | nil => intro out hout; simp [runSmooth] at hout
  | cons g gs ih =>
    intro out hout
    obtain ⟨hinv, hout2⟩ := smoothGesture_none_invariant s g hs
    simp only [runSmooth] at hout
    rcases List.mem_cons.mp hout with hfst | hrest
    · subst hfst
      rcases hout2 with hraw | hfalse
      · rw [hraw]; exact hg g (List.mem_cons_self g gs)
      · rw [hfalse]; simp
    · exact ih (smoothGesture s g).1 hinv
        (fun x hx => hg x (List.mem_cons_of_mem g hx)) out hrest

/-- Closed witness that the never-stable theorem applies to the
open-palm scenario. -/
theorem runSmooth_never_stable_witness :
    ∀ out ∈ (runSmooth initSmoothState (List.replicate 5 openPalmCand)).2,
      out.stable ≠ some true :=
  runSmooth_never_stable (List.replicate 5 openPalmCand) initSmoothState rfl
    (by decide)

/-! ## C1: end-to-end open-palm scenario -/

/-- C1.  Feeding 5 identical open-palm candidates at confidence 0.9 into
a freshly constructed `GestureProcessor`: the first 4 outputs are the raw
candidates (no `stable` key, i.e. `stable=False` downstream), but the
5th output is the neutral dictionary at confidence 0 with
`stable=False` — not `stable=True` with label `open_palm` as the spec
demands.  The hold counter sticks at 1 because the new majority resets
it without recording the pending label, so promotion never happens. -/
theorem c1_five_open_palm_run :
    (runSmooth initSmoothState (List.replicate 5 openPalmCand)).2 =
      [openPalmCand, openPalmCand, openPalmCand, openPalmCand, neutralOut] ∧
    neutralOut.gestureType = "neutral" ∧ neutralOut.stable = some false ∧
    (runSmooth initSmoothState (List.replicate 5 openPalmCand)).1.lastConfirmedGesture
      = none := by
  norm_num [runSmooth, smoothGesture, pushWindow, pushHistory, bufferSize,
    minHoldFrames, initSmoothState, openPalmCand, neutralOut, mostCommonLabel,
    firstOccLabels, countLabel, avgConfFor, promotionMet, decayStep, optStrTruthy,
    List.replicate, List.filter, List.foldl]

/-! ## C4: malformed input behaviour of `analyze_gesture` -/

/-- C4.  A hand-landmark list shorter than the 21 expected points makes
`analyze_gesture` raise `IndexError` (there is no try/except on this
path), contradicting the spec's requirement that malformed/short
landmark lists never raise; a frame with the hand list missing
altogether does resolve to the neutral label at confidence 0. -/
theorem c4_short_landmarks_raise :
    analyzeGesture initSmoothState ⟨none, some [shortHand], none⟩ =
      Except.error PyErr.indexError ∧
    analyzeGesture initSmoothState ⟨none, none, none⟩ =
      Except.ok (⟨[neutralCand], [0], none, 0⟩, neutralCand) := by
  constructor
  · rfl
  · rfl


/-! ## C7: raw pass-through below window capacity -/

/-- Below capacity, a run of the stabilizer echoes its inputs. -/
lemma runSmooth_raw (cs : List GInfo) (s : SmoothState)
    (h : s.gestureBuffer.length + cs.length < 5) :
    (runSmooth s cs).2 = cs := by
  induction cs generalizing s with
  | nil => rfl
  | cons g gs ih =>
    have hstep : s.gestureBuffer.length + 1 < 5 := by
      simp only [List.length_cons] at h; omega
    have hnext : (s.gestureBuffer ++ [g]).length + gs.length < 5 := by
      simp only [List.length_append, List.length_singleton, List.length_cons,
        List.length_nil] at h ⊢
      omega
    simp only [runSmooth, smoothGesture_raw s g hstep]
    rw [ih _ hnext]

/-- C7.  For every candidate sequence strictly shorter than the window
capacity (5), the stabilizer started from a fresh `GestureProcessor`
returns each raw per-frame candidate unchanged. -/
theorem c7_raw_below_capacity (cs : List GInfo) (h : cs.length < 5) :
    (runSmooth initSmoothState cs).2 = cs := by
  apply runSmooth_raw
  simpa [initSmoothState] using h

/-- Closed witness for C7 at a concrete 3-candidate sequence. -/
theorem c7_raw_below_capacity_witness :
    (runSmooth initSmoothState [openPalmCand, neutralCand, openPalmCand]).2 =
      [openPalmCand, neutralCand, openPalmCand] :=
  c7_raw_below_capacity [openPalmCand, neutralCand, openPalmCand] (by decide)

/-! ## C3: decay path -/

/-- C3 (counterexample).  With a previously confirmed label `open_palm`
and hold counter 1 (> 0), a promotion-unmet frame emits the neutral
label at confidence 0, not the previously confirmed label at reduced
confidence: the claim's decay output fails when the counter is 1. -/
theorem c3_decay_hold_one_counterexample :
    decayStateHoldOne.lastConfirmedGesture = some "open_palm" ∧
    decayStateHoldOne.gestureHoldFrames = 1 ∧
    ¬ promotionMet (pushWindow decayStateHoldOne.gestureBuffer neutralCand) ∧
    (smoothGesture decayStateHoldOne neutralCand).2 = neutralOut ∧
    neutralOut.gestureType ≠ "open_palm" := by
  norm_num [smoothGesture, pushWindow, pushHistory, bufferSize,
    minHoldFrames, decayStateHoldOne, neutralCand, neutralOut, mostCommonLabel,
    firstOccLabels, countLabel, avgConfFor, promotionMet, decayStep, optStrTruthy,
    List.filter, List.foldl]
  constructor
  · rw [if_neg (by decide)]
  · decide

/-- C3 (amended).  From a confirmed state with hold counter `N ≥ 1`, a
frame that fills the window but leaves the promotion criteria unmet
decrements the hold counter by exactly 1; when `N ≥ 2` the output is the
previously confirmed label at the window-majority mean confidence
reduced by the factor 0.8 with `stable=False`; when `N = 1` the counter
reaches 0 on that very call and the neutral label at confidence 0 is
emitted immediately. -/
theorem c3_decay_behaviour (s : SmoothState) (g : GInfo) (L : String) (N : Nat)
    (hL : s.lastConfirmedGesture = some L) (hL2 : L ≠ "")
    (hN : s.gestureHoldFrames = N) (h1 : 1 ≤ N)
    (hfull : ¬ (pushWindow s.gestureBuffer g).length < bufferSize)
    (hmet : ¬ promotionMet (pushWindow s.gestureBuffer g)) :
    (smoothGesture s g).1.gestureHoldFrames = N - 1 ∧
    (2 ≤ N → (smoothGesture s g).2 =
      ⟨L, avgConfFor (pushWindow s.gestureBuffer g)
            (mostCommonLabel (pushWindow s.gestureBuffer g)) * (4/5),
        g.details, some false⟩) ∧
    (N = 1 → (smoothGesture s g).2 = neutralOut) := by
  subst hN
  have hcond : optStrTruthy s.lastConfirmedGesture = true ∧ s.gestureHoldFrames > 0 := by
    refine ⟨?_, by omega⟩
    rw [hL]
    simpa [optStrTruthy] using hL2
  unfold smoothGesture
  rw [if_neg hfull, if_neg hmet]
  unfold decayStep
  rw [if_pos hcond]
  by_cases h2 : 2 ≤ s.gestureHoldFrames
  · rw [if_pos (by omega)]
    refine ⟨rfl, fun _ => ?_, fun hc => by omega⟩
    rw [hL]
    rfl
  · have hN1 : s.gestureHoldFrames = 1 := by omega
    rw [hN1]
    rw [if_neg (by omega)]
    exact ⟨rfl, fun hc => by omega, fun _ => rfl⟩

/-- Closed witness for the amended decay behaviour at hold counter 2. -/
theorem c3_decay_behaviour_witness :
    (smoothGesture decayStateHoldTwo neutralCand).1.gestureHoldFrames = 1 ∧
    (smoothGesture decayStateHoldTwo neutralCand).2 =
      ⟨"open_palm", 0, [], some false⟩ := by
  have h := c3_decay_behaviour decayStateHoldTwo neutralCand "open_palm" 2
    rfl (by decide) rfl (by norm_num)
    (by norm_num [pushWindow, bufferSize, decayStateHoldTwo, neutralCand])
    (by norm_num [promotionMet, pushWindow, bufferSize, decayStateHoldTwo,
      neutralCand, mostCommonLabel, firstOccLabels, countLabel, avgConfFor,
      List.filter, List.foldl])
  refine ⟨h.1, ?_⟩
  rw [h.2.1 (by norm_num)]
  norm_num [avgConfFor, pushWindow, bufferSize, decayStateHoldTwo, neutralCand,
    mostCommonLabel, firstOccLabels, countLabel, List.filter, List.foldl]

/-! ## C6: blink burst classification -/

/-- C6.  `_analyze_blink_pattern` counts the buffered blink timestamps
within 1.5s of the current blink time and classifies a count of at
least 3 as `triple_blink`, exactly 2 as `double_blink` and at most 1 as
`single_blink`; blinks pushed at 0.0, 0.5 and 1.0 classify the third as
`triple_blink`, while 0.0 followed by 2.0 classifies the second as
`single_blink`. -/
theorem c6_blink_burst_classification (buf : List ℚ) (cur : ℚ) :
    (recentBlinkCount buf cur ≥ 3 → analyzeBlinkPattern buf cur = "triple_blink") ∧
    (recentBlinkCount buf cur = 2 → analyzeBlinkPattern buf cur = "double_blink") ∧
    (recentBlinkCount buf cur ≤ 1 → analyzeBlinkPattern buf cur = "single_blink") ∧
    analyzeBlinkPattern (pushBlink (pushBlink (pushBlink [] 0) (1/2)) 1) 1 = "triple_blink" ∧
    analyzeBlinkPattern (pushBlink (pushBlink [] 0) 2) 2 = "single_blink" := by
  refine ⟨?_, ?_, ?_, ?_, ?_⟩
  · intro h; unfold analyzeBlinkPattern; rw [if_pos h]
  · intro h; unfold analyzeBlinkPattern; rw [if_neg (by omega), if_pos (by omega)]
  · intro h; unfold analyzeBlinkPattern; rw [if_neg (by omega), if_neg (by omega)]
  · norm_num [analyzeBlinkPattern, recentBlinkCount, pushBlink, List.filter]
  · norm_num [analyzeBlinkPattern, recentBlinkCount, pushBlink, List.filter]

/-- Closed witness: the triple-blink clause applied at the concrete
0.0 / 0.5 / 1.0 buffer. -/
theorem c6_blink_burst_classification_witness :
    analyzeBlinkPattern [0, 1/2, 1] 1 = "triple_blink" :=
  (c6_blink_burst_classification [0, 1/2, 1] 1).1
    (by norm_num [recentBlinkCount, List.filter])

/-! ## C8: glasses-mode hysteresis -/

/-- C8 (counterexample).  Five consecutive glasses-cascade-only frames
from the initial state do not flip the mode flag: the code flips only
when the counter exceeds 5, i.e. on the 6th consecutive frame. -/
theorem c8_five_frames_counterexample :
    runGlasses initGlassesState (List.replicate 5 (0, 1)) =
      ⟨5, 0, false⟩ := by decide

/-- Glasses-evidence runs: counters accumulate and the flag is on iff
it was on already or the accumulated counter has passed 5. -/
lemma runGlasses_glassesSeq (n : Nat) : ∀ (g : Nat) (w : Bool),
    (runGlasses ⟨g, 0, w⟩ (List.replicate n (0, 1))).glassesFrames = g + n ∧
    (runGlasses ⟨g, 0, w⟩ (List.replicate n (0, 1))).noGlassesFrames = 0 ∧
    ((runGlasses ⟨g, 0, w⟩ (List.replicate n (0, 1))).wearingGlasses = true ↔
      (w = true ∨ (1 ≤ n ∧ 5 < g + n))) := by
  induction n with
  | zero =>
    intro g w
    refine ⟨by simp [runGlasses], by simp [runGlasses], ?_⟩
    simp only [List.replicate, runGlasses]
    constructor
    · exact fun h => Or.inl h
    · rintro (h | ⟨h1, h2⟩)
      · exact h
      · omega
  | succ n ih =>
    intro g w
    simp only [List.replicate, runGlasses, updateGlasses]
    rw [if_pos (by norm_num)]
    obtain ⟨h1, h2, h3⟩ := ih (g + 1) (if g + 1 > 5 then true else w)
    refine ⟨by rw [h1]; omega, h2, ?_⟩
    rw [h3]
    by_cases h5 : g + 1 > 5
    · rw [if_pos h5]
      constructor
      · intro _; exact Or.inr ⟨by omega, by omega⟩
      · intro _; exact Or.inl rfl
    · rw [if_neg h5]
      constructor
      · rintro (hw | ⟨hn, hlt⟩)
        · exact Or.inl hw
        · exact Or.inr ⟨by omega, by omega⟩
      · rintro (hw | ⟨hn, hlt⟩)
        · exact Or.inl hw
        · exact Or.inr ⟨by omega, by omega⟩

/-- No-glasses-evidence runs, mirror of `runGlasses_glassesSeq`. -/
lemma runGlasses_noGlassesSeq (n : Nat) : ∀ (g : Nat) (w : Bool),
    (runGlasses ⟨0, g, w⟩ (List.replicate n (1, 0))).glassesFrames = 0 ∧
    (runGlasses ⟨0, g, w⟩ (List.replicate n (1, 0))).noGlassesFrames = g + n ∧
    ((runGlasses ⟨0, g, w⟩ (List.replicate n (1, 0))).wearingGlasses = true ↔
      (w = true ∧ ¬(1 ≤ n ∧ 5 < g + n))) := by
  induction n with
  | zero =>
    intro g w
    refine ⟨by simp [runGlasses], by simp [runGlasses], ?_⟩
    simp only [List.replicate, runGlasses]
    constructor
    · intro h; exact ⟨h, by omega⟩
    · rintro ⟨h, -⟩; exact h
  | succ n ih =>
    intro g w
    simp only [List.replicate, runGlasses, updateGlasses]
    rw [if_neg (by omega), if_pos (by omega)]
    obtain ⟨h1, h2, h3⟩ := ih (g + 1) (if g + 1 > 5 then false else w)
    refine ⟨h1, by rw [h2]; omega, ?_⟩
    rw [h3]
    by_cases h5 : g + 1 > 5
    · rw [if_pos h5]
      constructor
      · rintro ⟨hf, -⟩; exact absurd hf (by simp)
      · rintro ⟨-, hnot⟩; exact absurd ⟨by omega, by omega⟩ hnot
    · rw [if_neg h5]
      constructor
      · rintro ⟨hw, hnot⟩; exact ⟨hw, fun ⟨ha, hb⟩ => hnot ⟨by omega, by omega⟩⟩
      · rintro ⟨hw, hnot⟩; exact ⟨hw, fun ⟨ha, hb⟩ => hnot ⟨by omega, by omega⟩⟩

/-- C8 (amended).  The mode flag flips only after 6 consecutive frames
of consistent evidence (the counter must exceed 5), in either direction;
an inconsistent frame resets the opposing counter; and from the initial
state the flag is on exactly when at least 6 consecutive glasses-only
frames have accumulated. -/
theorem c8_glasses_hysteresis_amended :
    (runGlasses initGlassesState (List.replicate 5 (0, 1))).wearingGlasses = false ∧
    (runGlasses initGlassesState (List.replicate 6 (0, 1))).wearingGlasses = true ∧
    (runGlasses ⟨0, 0, true⟩ (List.replicate 5 (1, 0))).wearingGlasses = true ∧
    (runGlasses ⟨0, 0, true⟩ (List.replicate 6 (1, 0))).wearingGlasses = false ∧
    (∀ s : GlassesState, ∀ e eg : Nat, (updateGlasses s (e + 1) eg).glassesFrames = 0) ∧
    (∀ s : GlassesState, ∀ eg : Nat, (updateGlasses s 0 (eg + 1)).noGlassesFrames = 0) ∧
    (∀ n : Nat, ((runGlasses initGlassesState (List.replicate n (0, 1))).wearingGlasses = true
      ↔ 6 ≤ n)) := by
  refine ⟨by decide, by decide, by decide, by decide, ?_, ?_, ?_⟩
  · intro s e eg
    unfold updateGlasses
    rw [if_neg (by omega), if_pos (by omega)]
  · intro s eg
    unfold updateGlasses
    rw [if_pos ⟨by omega, rfl⟩]
  · intro n
    have h := (runGlasses_glassesSeq n 0 false).2.2
    simp only [initGlassesState]
    rw [h]
    constructor
    · rintro (hf | ⟨h1, h2⟩)
      · exact absurd hf (by simp)
      · omega
    · intro h6; exact Or.inr ⟨by omega, by omega⟩

/-! ## C10: mood-action confidence gate -/

/-- C10.  `execute_mood_action` with confidence strictly below 0.6
returns `None` before doing anything: no actuator result, no action-log
entry; and the music manager is `None` in this repository (its module's
failing import leaves it unset), so no music playback can occur on any
path. -/
theorem c10_low_conf_mood_noop (mood : String) (conf : ℚ) (h : conf < 3/5) :
    executeMoodAction mood conf = (none, []) ∧ musicManager = none := by
  refine ⟨?_, rfl⟩
  unfold executeMoodAction
  rw [if_pos h]

/-- Closed witness for C10 at mood `happy`, confidence 0.5. -/
theorem c10_low_conf_mood_noop_witness :
    executeMoodAction "happy" (1/2) = (none, []) ∧ musicManager = none :=
  c10_low_conf_mood_noop "happy" (1/2) (by norm_num)

/-! ## C2: per-category cooldown idempotence -/

/-- Every known blink type is a truthy string. -/
lemma knownBlinkTypes_truthy (bt : Option String) (h : bt ∈ knownBlinkTypes) :
    optStrTruthy bt = true := by
  fin_cases h <;> decide

/-- The mapped blink actuators all return a (truthy) result. -/
lemma executeBlinkAction_isSome (bt : Option String) (h : bt ∈ knownBlinkTypes) :
    (executeBlinkAction (bt.getD "")).1.isSome = true := by
  fin_cases h <;> decide

/-- No known mood is the neutral label. -/
lemma knownMoods_ne_neutral (m : String) (h : m ∈ knownMoods) : m ≠ "neutral" := by
  fin_cases h <;> decide

/-- At confidence at least 0.6, every known mood's actuator returns a
(truthy) result. -/
lemma executeMoodAction_isSome (m : String) (c : ℚ) (hm : m ∈ knownMoods)
    (hc : 3/5 ≤ c) : (executeMoodAction m c).1.isSome = true := by
  unfold executeMoodAction
  rw [if_neg (not_lt.mpr hc)]
  fin_cases hm <;> simp [musicManager, moodActionResult]

/-- Blink block: firing conditions met. -/
lemma processBlinkBlock_fire (last : ℚ) (b : BlinkInfoR) (now : ℚ)
    (hd : b.blinkDetected = true) (ht : optStrTruthy b.blinkType = true)
    (hc : now - last ≥ 3) :
    processBlinkBlock last (some b) now =
      ((executeBlinkAction (b.blinkType.getD "")).1, now) := by
  simp only [processBlinkBlock]
  rw [if_pos ⟨hd, ht, hc⟩]

/-- Blink block: inside the cooldown the event is dropped silently. -/
lemma processBlinkBlock_drop (last : ℚ) (b : BlinkInfoR) (now : ℚ)
    (hc : now - last < 3) :
    processBlinkBlock last (some b) now = (none, last) := by
  simp only [processBlinkBlock]
  rw [if_neg (by rintro ⟨-, -, h⟩; linarith)]

/-- Mood block: firing conditions met for a known mood at confidence at
least 0.6 stamps the timestamp (the result is truthy). -/
lemma processMoodBlock_fire (last : ℚ) (m : MoodInfoR) (now : ℚ)
    (hm : m.mood ∈ knownMoods) (hc2 : 3/5 ≤ m.confidence)
    (hcool : now - last ≥ 5) :
    processMoodBlock last (some m) now =
      ((executeMoodAction m.mood m.confidence).1, now) := by
  have hne : m.mood ≠ "neutral" := knownMoods_ne_neutral m.mood hm
  have hsome := executeMoodAction_isSome m.mood m.confidence hm hc2
  simp only [processMoodBlock]
  rw [if_pos ⟨hne, hcool⟩]
  simp [hsome]

/-- Mood block: inside the cooldown the event is dropped silently. -/
lemma processMoodBlock_drop (last : ℚ) (m : MoodInfoR) (now : ℚ)
    (hc : now - last < 5) :
    processMoodBlock last (some m) now = (none, last) := by
  simp only [processMoodBlock]
  rw [if_neg (by rintro ⟨-, h⟩; linarith)]

/-- Gesture block: firing conditions met. -/
lemma processGestureBlock_fire (last : ℚ) (gi : GInfo) (now : ℚ)
    (h1 : 13/20 < gi.confidence) (h2 : gi.stable = some true)
    (h3 : gi.gestureType ≠ "neutral") (h4 : now - last ≥ 2) :
    processGestureBlock last gi now = (true, now) := by
  unfold processGestureBlock
  rw [if_pos ⟨h1, by rw [h2]; rfl, h3, h4⟩]

/-- Gesture block: inside the cooldown nothing fires. -/
lemma processGestureBlock_drop (last : ℚ) (gi : GInfo) (now : ℚ)
    (hc : now - last < 2) :
    processGestureBlock last gi now = (false, last) := by
  unfold processGestureBlock
  rw [if_neg (by rintro ⟨-, -, -, h⟩; linarith)]

/-- C2.  For each category (blink 3.0s, mood 5.0s, gesture 2.0s): given
two confirmed events where the first fires, a second event less than
the interval later is dropped silently (no invocation, timestamp keeps
the first firing time) so exactly one actuator invocation occurs, while
a second event more than the interval later fires too (exactly two
invocations) and the last-trigger timestamp is stamped with the current
time on each firing. -/
theorem c2_cooldown_pairs (last0 t1 t2 : ℚ)
    (b1 b2 : BlinkInfoR) (m1 m2 : MoodInfoR) (g1 g2 : GInfo)
    (hb1d : b1.blinkDetected = true) (hb1t : b1.blinkType ∈ knownBlinkTypes)
    (hb2d : b2.blinkDetected = true) (hb2t : b2.blinkType ∈ knownBlinkTypes)
    (hm1 : m1.mood ∈ knownMoods) (hm1c : 3/5 ≤ m1.confidence)
    (hm2 : m2.mood ∈ knownMoods) (hm2c : 3/5 ≤ m2.confidence)
    (hg1c : 13/20 < g1.confidence) (hg1s : g1.stable = some true)
    (hg1n : g1.gestureType ≠ "neutral")
    (hg2c : 13/20 < g2.confidence) (hg2s : g2.stable = some true)
    (hg2n : g2.gestureType ≠ "neutral")
    (hfb : t1 - last0 ≥ 3) (hfm : t1 - last0 ≥ 5) (hfg : t1 - last0 ≥ 2) :
    ((runBlinkTwice last0 b1 b2 t1 t2).1.isSome = true ∧
      (t2 - t1 < 3 → (runBlinkTwice last0 b1 b2 t1 t2).2.1 = none ∧
        (runBlinkTwice last0 b1 b2 t1 t2).2.2 = t1) ∧
      (t2 - t1 > 3 → (runBlinkTwice last0 b1 b2 t1 t2).2.1.isSome = true ∧
        (runBlinkTwice last0 b1 b2 t1 t2).2.2 = t2)) ∧
    ((runMoodTwice last0 m1 m2 t1 t2).1.isSome = true ∧
      (t2 - t1 < 5 → (runMoodTwice last0 m1 m2 t1 t2).2.1 = none ∧
        (runMoodTwice last0 m1 m2 t1 t2).2.2 = t1) ∧
      (t2 - t1 > 5 → (runMoodTwice last0 m1 m2 t1 t2).2.1.isSome = true ∧
        (runMoodTwice last0 m1 m2 t1 t2).2.2 = t2)) ∧
    ((runGestureTwice last0 g1 g2 t1 t2).1 = true ∧
      (t2 - t1 < 2 → (runGestureTwice last0 g1 g2 t1 t2).2.1 = false ∧
        (runGestureTwice last0 g1 g2 t1 t2).2.2 = t1) ∧
      (t2 - t1 > 2 → (runGestureTwice last0 g1 g2 t1 t2).2.1 = true ∧
        (runGestureTwice last0 g1 g2 t1 t2).2.2 = t2)) := by
  have hb1truthy := knownBlinkTypes_truthy b1.blinkType hb1t
  have hb2truthy := knownBlinkTypes_truthy b2.blinkType hb2t
  have hfire1 := processBlinkBlock_fire last0 b1 t1 hb1d hb1truthy hfb
  have hmfire1 := processMoodBlock_fire last0 m1 t1 hm1 hm1c hfm
  have hgfire1 := processGestureBlock_fire last0 g1 t1 hg1c hg1s hg1n hfg
  refine ⟨⟨?_, ?_, ?_⟩, ⟨?_, ?_, ?_⟩, ⟨?_, ?_, ?_⟩⟩
  · simp only [runBlinkTwice, hfire1]
    exact executeBlinkAction_isSome b1.blinkType hb1t
  · intro hclose
    have hdrop := processBlinkBlock_drop t1 b2 t2 hclose
    refine ⟨?_, ?_⟩
    · simp only [runBlinkTwice, hfire1, hdrop]
    · simp only [runBlinkTwice, hfire1, hdrop]
  · intro hfar
    have hfire2 := processBlinkBlock_fire t1 b2 t2 hb2d hb2truthy (by linarith)
    refine ⟨?_, ?_⟩
    · simp only [runBlinkTwice, hfire1, hfire2]
      exact executeBlinkAction_isSome b2.blinkType hb2t
    · simp only [runBlinkTwice, hfire1, hfire2]
  · simp only [runMoodTwice, hmfire1]
    exact executeMoodAction_isSome m1.mood m1.confidence hm1 hm1c
  · intro hclose
    have hdrop := processMoodBlock_drop t1 m2 t2 hclose
    refine ⟨?_, ?_⟩
    · simp only [runMoodTwice, hmfire1, hdrop]
    · simp only [runMoodTwice, hmfire1, hdrop]
  · intro hfar
    have hfire2 := processMoodBlock_fire t1 m2 t2 hm2 hm2c (by linarith)
    refine ⟨?_, ?_⟩
    · simp only [runMoodTwice, hmfire1, hfire2]
      exact executeMoodAction_isSome m2.mood m2.confidence hm2 hm2c
    · simp only [runMoodTwice, hmfire1, hfire2]
  · simp only [runGestureTwice, hgfire1]
  · intro hclose
    have hdrop := processGestureBlock_drop t1 g2 t2 hclose
    refine ⟨?_, ?_⟩
    · simp only [runGestureTwice, hgfire1, hdrop]
    · simp only [runGestureTwice, hgfire1, hdrop]
  · intro hfar
    have hfire2 := processGestureBlock_fire t1 g2 t2 hg2c hg2s hg2n (by linarith)
    refine ⟨?_, ?_⟩
    · simp only [runGestureTwice, hgfire1, hfire2]
    · simp only [runGestureTwice, hgfire1, hfire2]

/-- Closed witness for C2: concrete blink / mood / gesture event pairs
inside and outside the cooldown windows. -/
theorem c2_cooldown_pairs_witness :
    (runBlinkTwice 0 ⟨true, some "single_blink"⟩ ⟨true, some "double_blink"⟩ 6 7).2.1
      = none ∧
    (runMoodTwice 0 ⟨"happy", 7/10⟩ ⟨"happy", 7/10⟩ 6 12).2.2 = 12 := by
  have h := c2_cooldown_pairs 0 6 7
    ⟨true, some "single_blink"⟩ ⟨true, some "double_blink"⟩
    ⟨"happy", 7/10⟩ ⟨"happy", 7/10⟩ openPalmStable openPalmStable
    rfl (by decide) rfl (by decide)
    (by decide) (by norm_num) (by decide) (by norm_num)
    (by norm_num [openPalmStable]) rfl (by decide)
    (by norm_num [openPalmStable]) rfl (by decide)
    (by norm_num) (by norm_num) (by norm_num)
  have h2 := c2_cooldown_pairs 0 6 12
    ⟨true, some "single_blink"⟩ ⟨true, some "double_blink"⟩
    ⟨"happy", 7/10⟩ ⟨"happy", 7/10⟩ openPalmStable openPalmStable
    rfl (by decide) rfl (by decide)
    (by decide) (by norm_num) (by decide) (by norm_num)
    (by norm_num [openPalmStable]) rfl (by decide)
    (by norm_num [openPalmStable]) rfl (by decide)
    (by norm_num) (by norm_num) (by norm_num)
  exact ⟨(h.1.2.1 (by norm_num)).1, (h2.2.1.2.2 (by norm_num)).2⟩


/-! ## C5 and C9: expression scoring -/

/-- The fold used by `pickMaxFirst` never drops below a bound satisfied
by the running best. -/
lemma foldPickMax_ge (rest : List (String × ℚ)) (p : String × ℚ) (b : ℚ)
    (h : b ≤ p.2) :
    b ≤ (rest.foldl (fun best q => if q.2 > best.2 then q else best) p).2 := by
  induction rest generalizing p with
  | nil => exact h
  | cons q rest ih =>
    simp only [List.foldl]
    by_cases hq : q.2 > p.2
    · rw [if_pos hq]
      exact ih q (le_of_lt (lt_of_le_of_lt h hq))
    · rw [if_neg hq]
      exact ih p h

/-- Python `max` over a non-empty item list stays above any bound that
all values satisfy. -/
lemma pickMaxFirst_ge (l : List (String × ℚ)) (b : ℚ) (hne : l ≠ [])
    (h : ∀ q ∈ l, b ≤ q.2) : b ≤ (pickMaxFirst l).2 := by
  cases l with
  | nil => exact absurd rfl hne
  | cons p rest =>
    exact foldPickMax_ge rest p b (h p (List.mem_cons_self p rest))

/-- Sum bound: a list of values all at least `b` sums to at least
`b * length`. -/
lemma list_sum_ge (cs : List ℚ) (b : ℚ) (h : ∀ x ∈ cs, b ≤ x) :
    b * (cs.length : ℚ) ≤ cs.sum := by
  induction cs with
  | nil => simp
  | cons c cs ih =>
    have hc := h c (List.mem_cons_self c cs)
    have hrest := ih (fun x hx => h x (List.mem_cons_of_mem c hx))
    simp only [List.length_cons, List.sum_cons]
    push_cast
    nlinarith [hrest]

/-- Mean bound: the average of a non-empty list of values all at least
`b` is at least `b`. -/
lemma list_avg_ge (cs : List ℚ) (b : ℚ) (h : ∀ x ∈ cs, b ≤ x)
    (hne : cs ≠ []) : b ≤ cs.sum / (cs.length : ℚ) := by
  have hlen : 0 < (cs.length : ℚ) := by
    have := List.length_pos.mpr hne
    exact_mod_cast this
  rw [le_div_iff hlen]
  exact list_sum_ge cs b h

/-- `insertGroup` never yields the empty group list. -/
lemma insertGroup_ne_nil (acc : List (String × List ℚ)) (e : String) (c : ℚ) :
    insertGroup acc e c ≠ [] := by
  cases acc with
  | nil => simp [insertGroup]
  | cons g rest =>
    unfold insertGroup
    by_cases h : g.1 = e <;> simp [h]

/-- `insertGroup` preserves a predicate on all grouped values and the
non-emptiness of every group. -/
lemma insertGroup_pred (P : ℚ → Prop) (acc : List (String × List ℚ)) (e : String)
    (c : ℚ) (hacc : ∀ g ∈ acc, (∀ x ∈ g.2, P x) ∧ g.2 ≠ []) (hc : P c) :
    ∀ g ∈ insertGroup acc e c, (∀ x ∈ g.2, P x) ∧ g.2 ≠ [] := by
  induction acc with
  | nil =>
    intro g hg
    simp only [insertGroup, List.mem_singleton] at hg
    subst hg
    exact ⟨fun x hx => by simp at hx; rw [hx]; exact hc, by simp⟩
  | cons a rest ih =>
    intro g hg
    unfold insertGroup at hg
    by_cases he : a.1 = e
    · rw [if_pos he] at hg
      rcases List.mem_cons.mp hg with hfst | hrest
      · subst hfst
        have ha := hacc a (List.mem_cons_self a rest)
        refine ⟨fun x hx => ?_, by simp⟩
        rcases List.mem_append.mp hx with hx1 | hx2
        · exact ha.1 x hx1
        · simp at hx2; rw [hx2]; exact hc
      · exact hacc g (List.mem_cons_of_mem a hrest)
    · rw [if_neg he] at hg
      rcases List.mem_cons.mp hg with hfst | hrest
      · subst hfst
        exact hacc a (List.mem_cons_self a rest)
      · exact ih (fun x hx => hacc x (List.mem_cons_of_mem a hx)) g hrest

/-- Folding history entries into groups preserves the predicate and
non-emptiness of all groups. -/
lemma foldGroup_pred (P : ℚ → Prop) (hist : List (String × ℚ)) :
    ∀ acc : List (String × List ℚ),
    (∀ g ∈ acc, (∀ x ∈ g.2, P x) ∧ g.2 ≠ []) → (∀ p ∈ hist, P p.2) →
    ∀ g ∈ hist.foldl (fun acc p => insertGroup acc p.1 p.2) acc,
      (∀ x ∈ g.2, P x) ∧ g.2 ≠ [] := by
  induction hist with
  | nil => intro acc hacc _ g hg; exact hacc g hg
  | cons p rest ih =>
    intro acc hacc hh g hg
    simp only [List.foldl] at hg
    exact ih (insertGroup acc p.1 p.2)
      (insertGroup_pred P acc p.1 p.2 hacc (hh p (List.mem_cons_self p rest)))
      (fun q hq => hh q (List.mem_cons_of_mem p hq)) g hg

/-- Folding a non-empty accumulator through the grouping stays
non-empty. -/
lemma foldGroup_ne_nil (hist : List (String × ℚ)) :
    ∀ acc : List (String × List ℚ), acc ≠ [] →
    hist.foldl (fun acc p => insertGroup acc p.1 p.2) acc ≠ [] := by
  induction hist with
  | nil => intro acc hacc; exact hacc
  | cons p rest ih =>
    intro acc _
    simp only [List.foldl]
    exact ih (insertGroup acc p.1 p.2) (insertGroup_ne_nil acc p.1 p.2)

/-- A non-empty history groups into a non-empty group list. -/
lemma groupConfs_ne_nil (hist : List (String × ℚ)) (h : hist ≠ []) :
    groupConfs hist ≠ [] := by
  cases hist with
  | nil => exact absurd rfl h
  | cons p rest =>
    unfold groupConfs
    simp only [List.foldl]
    exact foldGroup_ne_nil rest (insertGroup [] p.1 p.2) (insertGroup_ne_nil [] p.1 p.2)

/-- Every entry of the history push is an old entry or the new one. -/
lemma pushExprHistory_mem (hist : List (String × ℚ)) (e p : String × ℚ)
    (hp : p ∈ pushExprHistory hist e) : p ∈ hist ∨ p = e := by
  unfold pushExprHistory at hp
  by_cases hl : (hist ++ [e]).length > 5
  · rw [if_pos hl] at hp
    have := List.mem_of_mem_tail hp
    rcases List.mem_append.mp this with h1 | h2
    · exact Or.inl h1
    · simp at h2; exact Or.inr h2
  · rw [if_neg hl] at hp
    rcases List.mem_append.mp hp with h1 | h2
    · exact Or.inl h1
    · simp at h2; exact Or.inr h2

/-- The history push never shrinks to empty. -/
lemma pushExprHistory_ne_nil (hist : List (String × ℚ)) (e : String × ℚ)
    (h : (pushExprHistory hist e).length ≥ 2) : pushExprHistory hist e ≠ [] := by
  intro hnil
  rw [hnil] at h
  simp at h

/-- Every averaged per-label confidence stays above a bound satisfied by
all history entries. -/
lemma avgConfList_ge (hist : List (String × ℚ)) (b : ℚ)
    (hh : ∀ p ∈ hist, b ≤ p.2) :
    ∀ q ∈ avgConfList hist, b ≤ q.2 := by
  intro q hq
  unfold avgConfList at hq
  rcases List.mem_map.mp hq with ⟨g, hg, hgq⟩
  have hgood := foldGroup_pred (fun x => b ≤ x) hist [] (by simp) hh g hg
  rw [← hgq]
  exact list_avg_ge g.2 b hgood.1 hgood.2

/-- The confidence emitted by `detect_expression` is at least 0.5,
provided every confidence already in the history is (which is the
invariant the code maintains: every appended entry is floored at
0.5). -/
lemma detectExpressionCore_conf_ge (hist : List (String × ℚ)) (f : FaceFeatures)
    (hh : ∀ p ∈ hist, 1/2 ≤ p.2) :
    1/2 ≤ (detectExpressionCore hist f).1.confidence := by
  have hhist2all : ∀ p ∈ hist2Of hist f, 1/2 ≤ p.2 := by
    intro p hp
    rcases pushExprHistory_mem hist ((domOf f).1, conf0Of f) p hp with h1 | h2
    · exact hh p h1
    · rw [h2]; exact le_max_left _ _
  show 1/2 ≤ (resOf hist f).2
  unfold resOf
  by_cases hlen : (hist2Of hist f).length ≥ 2
  · rw [if_pos hlen]
    have hne : avgConfList (hist2Of hist f) ≠ [] := by
      unfold avgConfList
      simp only [ne_eq, List.map_eq_nil]
      exact groupConfs_ne_nil (hist2Of hist f)
        (pushExprHistory_ne_nil hist ((domOf f).1, conf0Of f) hlen)
    exact pickMaxFirst_ge (avgConfList (hist2Of hist f)) (1/2) hne
      (avgConfList_ge (hist2Of hist f) (1/2) hhist2all)
  · rw [if_neg hlen]
    exact le_max_left _ _

/-- All scores other than happy stay inside `[0, 1]`, and happy is
non-negative. -/
lemma computeScores_bounds (f : FaceFeatures) :
    0 ≤ (computeScores f).happy ∧
    (0 ≤ (computeScores f).sad ∧ (computeScores f).sad ≤ 1) ∧
    (0 ≤ (computeScores f).surprised ∧ (computeScores f).surprised ≤ 1) ∧
    (0 ≤ (computeScores f).angry ∧ (computeScores f).angry ≤ 1) ∧
    (0 ≤ (computeScores f).neutral ∧ (computeScores f).neutral ≤ 1) := by
  have hcast : (0 : ℚ) ≤ (f.smiles : ℚ) := Nat.cast_nonneg f.smiles
  unfold computeScores
  dsimp only
  split_ifs <;>
    refine ⟨?_, ⟨?_, ?_⟩, ⟨?_, ?_⟩, ⟨?_, ?_⟩, ⟨?_, ?_⟩⟩ <;>
    first
      | positivity
      | (norm_num; done)
      | (simp only [max_def]; split_ifs <;> norm_num)

/-- With at least one smile box the happy score is exactly
`0.75 + 0.15 * smile count` (no clamping anywhere). -/
lemma computeScores_happy_smile (f : FaceFeatures) (h : 1 ≤ f.smiles) :
    (computeScores f).happy = 3/4 + (f.smiles : ℚ) * (3/20) := by
  unfold computeScores
  dsimp only
  split_ifs <;> first | rfl | omega

/-- Without smiles the happy score is 0.1 or 0.15. -/
lemma computeScores_happy_nosmile (f : FaceFeatures) (h : f.smiles = 0) :
    (computeScores f).happy = 1/10 ∨ (computeScores f).happy = 3/20 := by
  unfold computeScores
  dsimp only
  split_ifs <;> first | (left; rfl) | (right; rfl) | omega

/-- C5 (counterexample).  A frame with two detected smile boxes makes
the emitted happy score `0.75 + 2 * 0.15 = 1.05`, outside `[0, 1]`. -/
theorem c5_happy_score_counterexample :
    (detectExpressionCore [] exFace).1.allScores.happy = 21/20 ∧
    ¬ ((21 : ℚ)/20 ≤ 1) := by
  constructor
  · show (computeScores exFace).happy = 21/20
    norm_num [computeScores, exFace]
  · norm_num

/-- C5 (amended).  Expression scoring on a detected face always
produces all five scores; sad, surprised, angry and neutral lie in
`[0, 1]` and happy is non-negative, but happy is the unclamped
`0.75 + 0.15 * (smile count)` whenever a smile is detected, so it stays
within `[0, 1]` only for at most one smile box and exceeds 1 from two
boxes up; the emitted confidence is never below 0.5 (given the history
invariant that all stored confidences are at least 0.5, which the code
maintains by flooring before every append). -/
theorem c5_expression_scores_amended (hist : List (String × ℚ)) (f : FaceFeatures)
    (hhist : ∀ p ∈ hist, 1/2 ≤ p.2) :
    (detectExpressionCore hist f).1.allScores = computeScores f ∧
    (0 ≤ (computeScores f).happy ∧
      (0 ≤ (computeScores f).sad ∧ (computeScores f).sad ≤ 1) ∧
      (0 ≤ (computeScores f).surprised ∧ (computeScores f).surprised ≤ 1) ∧
      (0 ≤ (computeScores f).angry ∧ (computeScores f).angry ≤ 1) ∧
      (0 ≤ (computeScores f).neutral ∧ (computeScores f).neutral ≤ 1)) ∧
    (f.smiles ≤ 1 → (computeScores f).happy ≤ 1) ∧
    (1 ≤ f.smiles → (computeScores f).happy = 3/4 + (f.smiles : ℚ) * (3/20)) ∧
    1/2 ≤ (detectExpressionCore hist f).1.confidence := by
  refine ⟨rfl, computeScores_bounds f, ?_, computeScores_happy_smile f,
    detectExpressionCore_conf_ge hist f hhist⟩
  intro hle
  rcases Nat.lt_or_ge f.smiles 1 with h0 | h1
  · have h00 : f.smiles = 0 := by omega
    rcases computeScores_happy_nosmile f h00 with h | h <;> rw [h] <;> norm_num
  · have h11 : f.smiles = 1 := by omega
    rw [computeScores_happy_smile f h1, h11]
    norm_num

/-- Closed witness for the amended C5 at a one-smile face and a
history holding one entry at confidence 0.6. -/
theorem c5_expression_scores_amended_witness :
    1/2 ≤ (detectExpressionCore [("happy", 3/5)] ⟨1, [], 100, 10, 100, 10, 100, 10, 100, 100⟩).1.confidence :=
  (c5_expression_scores_amended [("happy", 3/5)] ⟨1, [], 100, 10, 100, 10, 100, 10, 100, 100⟩
    (by intro p hp; simp at hp; rw [hp]; norm_num)).2.2.2.2

/-- The callback loop visits every observer in order: its outcome list
is exactly the per-observer invocation results, so a raising observer
neither shortens the list nor stops the iteration. -/
lemma runMoodCallbacks_eq_map (obs : List MoodObserver) (l : String) (c : ℚ) :
    runMoodCallbacks obs l c = obs.map (fun cb => cb l c) := by
  induction obs with
  | nil => rfl
  | cons cb rest ih =>
    simp only [runMoodCallbacks, List.map]
    cases h : cb l c <;> rw [ih]

/-- C9.  On a detected face, `detect_expression` invokes every
registered mood observer synchronously with the emitted
`(label, confidence)` exactly when that confidence is at least 0.4: the
invocation list equals the full per-observer map (so one observer's
exception neither propagates — the function still returns its value —
nor prevents any remaining observer from being invoked), and is empty
below the gate. -/
theorem c9_mood_observer_notification (obs : List MoodObserver)
    (hist : List (String × ℚ)) (f : FaceFeatures)
    (hw : 0 < f.faceW) (hh : 0 < f.faceH) :
    detectExpression obs hist true (some f) =
      some ((detectExpressionCore hist f).1, (detectExpressionCore hist f).2,
        if (detectExpressionCore hist f).1.confidence ≥ 2/5 then
          obs.map (fun cb => cb (detectExpressionCore hist f).1.expression
            (detectExpressionCore hist f).1.confidence)
        else []) ∧
    (runMoodCallbacks obs (detectExpressionCore hist f).1.expression
      (detectExpressionCore hist f).1.confidence).length = obs.length := by
  constructor
  · have h2 : ¬ (f.faceW ≤ 0 ∨ f.faceH ≤ 0) := by rintro (h | h) <;> linarith
    simp only [detectExpression, runMoodCallbacks_eq_map]
    rw [if_neg (show ¬ (true = false) by simp), if_neg h2]
  · rw [runMoodCallbacks_eq_map]
    simp

/-- Closed witness for C9: a raising observer followed by a normal one
are both invoked on a concrete detected face. -/
theorem c9_mood_observer_notification_witness :
    (runMoodCallbacks [badObs, okObs] (detectExpressionCore [] exFace).1.expression
      (detectExpressionCore [] exFace).1.confidence).length = [badObs, okObs].length :=
  (c9_mood_observer_notification [badObs, okObs] [] exFace
    (by norm_num [exFace]) (by norm_num [exFace])).2


end CameraRecog
